import Mathlib

/-!
Verification of the conduit lifecycle orchestrator and file utilities of
the platform-tools repository.

The embedding below is shallow: Python functions become Lean functions,
stateful code becomes explicit state passing, and the remote AWS services
(secrets manager, parameter store, ECS) become explicit oracle inputs.
Strings handled character-by-character are modelled as lists of Unicode
code points (`List Nat`); `str.upper` is modelled on the ASCII letters,
all other code points being left unchanged, which agrees with Python on
every ASCII string.

The conduit command module itself (`dbt_copilot_helper/commands/conduit.py`)
is not part of the provided sources; only its test suite is.  Definitions
marked `Modelled from the spec:` reconstruct those functions from the
specification (sections 4.1-4.7 and 6) with the shapes fixed by the test
suite in `tests/copilot_helper/test_command_conduit.py`.
-/

namespace PlatformTools

/-! ## Secret-key normalisation (`dbt_platform_helper/domain/copilot.py`, `make_addons`)

The in-source secret-key normalisation is the expression
`ext_name.upper().replace("-", "_")` building the `secret_name` entry of
`environment_addon_config`.  Characters are modelled by code points:
97-122 are the lowercase ASCII letters, 45 is the hyphen, 95 the
underscore, 32 the space. -/

/-- Python `str.upper` on one character, over the ASCII letters. -/
def py_upper_char (c : Nat) : Nat :=
  if 97 ≤ c ∧ c ≤ 122 then c - 32 else c

/-- One character of Python `str.replace("-", "_")`: the replacement of a
single-character pattern acts pointwise. -/
def py_hyphen_to_underscore (c : Nat) : Nat :=
  if c = 45 then 95 else c

/-- `ext_name.upper().replace("-", "_")` from `Copilot.make_addons`
(`dbt_platform_helper/domain/copilot.py` line 286). -/
def secret_name (s : List Nat) : List Nat :=
  (s.map py_upper_char).map py_hyphen_to_underscore

/-- Code points of a Lean string, to write concrete examples readably. -/
def codes (s : String) : List Nat :=
  s.toList.map Char.toNat

/-- An uppercase-alphanumeric-or-underscore code point, the output
alphabet the specification promises for normalised secret keys. -/
def upper_snake_char (c : Nat) : Bool :=
  decide ((65 ≤ c ∧ c ≤ 90) ∨ (48 ≤ c ∧ c ≤ 57) ∨ c = 95)

/-- A code point that is neither a lowercase ASCII letter nor a hyphen:
what `secret_name` actually guarantees for its output. -/
def no_lower_no_hyphen_char (c : Nat) : Bool :=
  decide (¬ (97 ≤ c ∧ c ≤ 122) ∧ c ≠ 45)

/-! ## `mkfile` (`dbt_platform_helper/utils/files.py`)

The filesystem is modelled as an association list from paths to file
contents; a write prepends, and reads take the most recent entry. -/

structure FileSystem where
  files : List (String × String)
deriving DecidableEq, Repr

def readFile (fs : FileSystem) (path : String) : Option String :=
  (fs.files.find? (fun e => e.fst == path)).map Prod.snd

def writeFile (fs : FileSystem) (path contents : String) : FileSystem :=
  ⟨(path, contents) :: fs.files⟩

/-- `Path(base_path).joinpath(file_path)`. -/
def joinPath (base rel : String) : String :=
  base ++ "/" ++ rel

/-- `mkfile(base_path, file_path, contents, overwrite)` from
`dbt_platform_helper/utils/files.py` lines 19-34.  Returns the updated
filesystem and the reported message.  The `makedirs` call only creates
directories, never touching file contents, so directories are not
modelled. -/
def mkfile (fs : FileSystem) (basePath filePath contents : String)
    (overwrite : Bool) : FileSystem × String :=
  let file := joinPath basePath filePath
  let fileExists := (readFile fs file).isSome
  if fileExists && !overwrite then
    (fs, "File " ++ filePath ++ " exists; doing nothing")
  else
    let action := if fileExists && overwrite then "overwritten" else "created"
    (writeFile fs file contents, "File " ++ filePath ++ " " ++ action)

/-- Sample filesystem used to instantiate the `mkfile` theorem. -/
def fsSample : FileSystem :=
  ⟨[("base/existing.yml", "old contents")]⟩

/-! ## Conduit lifecycle (spec sections 4.1-4.7, 6)

The module `dbt_copilot_helper/commands/conduit.py` is not among the
provided sources; the definitions below are reconstructed from the
specification, with shapes fixed by its test suite. -/

/-- Terminal failure states of the conduit orchestrator (spec section 4.7). -/
inductive ConduitError where
  | invalidAddonType (addonType : String)
  | noCluster
  | secretNotFound (secretKey : String)
  | createTaskTimeout
deriving DecidableEq, Repr

/-- One remote call issued by the orchestrator, recorded in order. -/
inductive CallEvent where
  | locateCluster
  | getTaskName
  | checkRunning
  | resolveSecret
  | launchTask
  | patchDeletePolicy
  | patchLogRetention
  | pollCheck
  | attachSession
deriving DecidableEq, Repr

/-- The observable status of the conduit client task: the ECS task
status together with the named in-task agent status. -/
structure TaskDescription where
  lastStatus : String
  agentLastStatus : String
deriving DecidableEq, Repr

/-- Modelled from the spec: `addon_client_is_running` (section 4.5's
status check).  A poll is ready only when both the task execution status
and the named agent report running; a missing client task or any other
status combination is not ready. -/
def addon_client_is_running (task : Option TaskDescription) : Bool :=
  match task with
  | none => false
  | some t => t.lastStatus == "RUNNING" && t.agentLastStatus == "RUNNING"

/-- Modelled from the spec: the canonical secret path
`/<namespace>/<application>/<environment>/secrets/<secretKey>` with the
namespace `copilot` fixed by the test suite. -/
def connection_secret_path (app env secretKey : String) : String :=
  "/copilot/" ++ app ++ "/" ++ env ++ "/secrets/" ++ secretKey

/-- Modelled from the spec: `get_connection_secret_arn` (section 4.2).
Queries the primary secret store by the canonical path, then the
fallback parameter store by the same path, returning the first success;
absence in both fails with the secret key. -/
def get_connection_secret_arn (secretsManager parameterStore : String → Option String)
    (app env secretKey : String) : Except ConduitError String :=
  match secretsManager (connection_secret_path app env secretKey) with
  | some arn => .ok arn
  | none =>
    match parameterStore (connection_secret_path app env secretKey) with
    | some arn => .ok arn
    | none => .error (.secretNotFound secretKey)

/-- Modelled from the spec: the canonical parameter path at which the
conduit task name is persisted, keyed by the addon name (fixed by the
test suite to `/copilot/<app>/<env>/conduits/<addonName>_CONDUIT_TASK_NAME`). -/
def conduit_task_name_path (app env addonName : String) : String :=
  "/copilot/" ++ app ++ "/" ++ env ++ "/conduits/" ++ addonName ++ "_CONDUIT_TASK_NAME"

/-- The parameter store used by the task-name registry, an association
list from parameter names to values. -/
structure ParamStore where
  params : List (String × String)
deriving DecidableEq, Repr

def getParam (s : ParamStore) (name : String) : Option String :=
  (s.params.find? (fun e => e.fst == name)).map Prod.snd

def putParam (s : ParamStore) (name value : String) : ParamStore :=
  ⟨(name, value) :: s.params⟩

/-- The random suffix contract of spec section 4.3: a lowercase
alphanumeric string of exactly 12 characters. -/
def random_id_ok (s : String) : Bool :=
  s.length == 12 && s.toList.all (fun c => c.isLower || c.isDigit)

/-- Modelled from the spec: `get_or_create_task_name` (section 4.3).
Reads the persisted value at the canonical path; if present it is
returned verbatim, otherwise the name
`task-<app>-<env>-conduit-<addonName>-<random12>` is synthesized,
persisted and returned.  The random generator is an oracle argument
`randomId`; the returned Boolean records whether a write was performed. -/
def get_or_create_task_name (store : ParamStore) (app env addonName randomId : String) :
    String × ParamStore × Bool :=
  match getParam store (conduit_task_name_path app env addonName) with
  | some name => (name, store, false)
  | none =>
    let name := "task-" ++ app ++ "-" ++ env ++ "-conduit-" ++ addonName ++ "-" ++ randomId
    (name, putParam store (conduit_task_name_path app env addonName) name, true)

/-- Bounded readiness polling: performs up to `fuel` status checks,
stopping at the first success.  `i` indexes the successive observations
of the task state; returns the number of checks performed and whether a
check succeeded. -/
def pollLoop (isRunning : Nat → Bool) (i : Nat) (fuel : Nat) : Nat × Bool :=
  match fuel with
  | 0 => (0, false)
  | fuel + 1 =>
    if isRunning i then (1, true)
    else
      let r := pollLoop isRunning (i + 1) fuel
      (r.1 + 1, r.2)

/-- Modelled from the spec: `connect_to_addon_client_task`
(sections 4.5 and 4.7 step 7).  Polls `addon_client_is_running` on the
successive task-state observations `states`, at most 15 times, attaching
the interactive session on the first ready poll; exhausting all attempts
fails with the readiness timeout and never attaches.  Returns the
result, the number of status checks performed, and whether the attach
call was issued. -/
def connect_to_addon_client_task (states : Nat → Option TaskDescription) :
    Except ConduitError Unit × Nat × Bool :=
  let r := pollLoop (fun i => addon_client_is_running (states i)) 0 15
  if r.2 then (.ok (), r.1, true)
  else (.error .createTaskTimeout, r.1, false)

/-- The addon types accepted by the conduit flow (fixed by the test
suite's CLI choice list). -/
def VALID_ADDON_TYPES : List String := ["opensearch", "postgres", "redis"]

/-- The oracle environment of one `start_conduit` invocation: outcomes
of the remote collaborators it consults.  `taskStates i` is the `i`-th
observation made by `addon_client_is_running`: observation 0 is the
single-attempt existing-task check, later observations are the
readiness poller's. -/
structure ConduitEnv where
  clusterArn : Except ConduitError String
  taskName : String
  taskStates : Nat → Option TaskDescription
  secretArn : Except ConduitError String
  launchResult : Except ConduitError Unit

/-- The readiness-polling and attach phase shared by the reuse branch
and the provisioning branch: the poller observes `taskStates` from
observation 1 on. -/
def connectPhase (env : ConduitEnv) (tr : List CallEvent) :
    Except ConduitError Unit × List CallEvent :=
  let r := pollLoop (fun i => addon_client_is_running (env.taskStates i)) 1 15
  if r.2 then (.ok (), tr ++ List.replicate r.1 .pollCheck ++ [.attachSession])
  else (.error .createTaskTimeout, tr ++ List.replicate r.1 .pollCheck)

/-- Modelled from the spec: `start_conduit` (section 4.7).  Validates
the addon type, locates the cluster, resolves the task name, performs
the single-attempt existing-task check, and either attaches directly or
provisions (secret resolution, launch, the two policy patches) before
polling and attaching.  Returns the outcome and the ordered list of
calls issued. -/
def start_conduit (env : ConduitEnv) (addonType : String) (_addonName : Option String) :
    Except ConduitError Unit × List CallEvent :=
  if VALID_ADDON_TYPES.contains addonType then
    match env.clusterArn with
    | .error e => (.error e, [.locateCluster])
    | .ok _ =>
      if addon_client_is_running (env.taskStates 0) then
        connectPhase env [.locateCluster, .getTaskName, .checkRunning]
      else
        match env.secretArn with
        | .error e => (.error e, [.locateCluster, .getTaskName, .checkRunning, .resolveSecret])
        | .ok _ =>
          match env.launchResult with
          | .error e =>
            (.error e,
              [.locateCluster, .getTaskName, .checkRunning, .resolveSecret, .launchTask])
          | .ok _ =>
            connectPhase env
              [.locateCluster, .getTaskName, .checkRunning, .resolveSecret, .launchTask,
                .patchDeletePolicy, .patchLogRetention]
  else
    (.error (.invalidAddonType addonType), [])

/-- CLI messages, fixed by the test suite (spec section 6: a
human-readable message naming the failure's subject). -/
def no_cluster_message (app env : String) : String :=
  "No ECS cluster found for \"" ++ app ++ "\" in \"" ++ env ++ "\" environment."

def secret_not_found_message (name app env : String) : String :=
  "No secret called \"" ++ name ++ "\" for \"" ++ app ++ "\" in \"" ++ env ++ "\" environment."

def task_timeout_message (addonType app env : String) : String :=
  "Client (" ++ addonType ++ ") ECS task has failed to start for \"" ++ app ++
    "\" in \"" ++ env ++ "\" environment."

def usage_error_message (value : String) : String :=
  "Invalid value: " ++ value ++ " is not one of opensearch, postgres, redis"

/-- Modelled from the spec: the `conduit` CLI command (section 6).  The
addon type is a choice argument checked by the argument parsing layer,
which rejects an unsupported value with the usage exit code 2 before
the command body runs (fixed by
`test_conduit_command_when_addon_type_is_invalid`); otherwise the
command runs `start_conduit` and maps its outcome to an exit code and a
message: 0 on successful attach, 1 on each terminal failure. -/
def conduit_command (env : ConduitEnv) (addonType app envName : String)
    (addonName : Option String) : Nat × String :=
  if VALID_ADDON_TYPES.contains addonType then
    match (start_conduit env addonType addonName).1 with
    | .ok _ => (0, "")
    | .error .noCluster => (1, no_cluster_message app envName)
    | .error (.secretNotFound _) =>
      (1, secret_not_found_message (addonName.getD addonType) app envName)
    | .error .createTaskTimeout => (1, task_timeout_message addonType app envName)
    | .error (.invalidAddonType t) => (2, usage_error_message t)
  else
    (2, usage_error_message addonType)

/-- A running client task as observed by `addon_client_is_running`. -/
def runningTask : TaskDescription := ⟨"RUNNING", "RUNNING"⟩

/-- Sample environment where every collaborator succeeds and the client
task is already active. -/
def envRunning : ConduitEnv where
  clusterArn := .ok "test-arn"
  taskName := "task-test-application-development-conduit-postgres-abcdef123456"
  taskStates := fun _ => some runningTask
  secretArn := .ok "secret-arn"
  launchResult := .ok ()

/-- Sample environment where the cluster lookup fails. -/
def envNoCluster : ConduitEnv where
  clusterArn := .error .noCluster
  taskName := "task-test-application-development-conduit-postgres-abcdef123456"
  taskStates := fun _ => none
  secretArn := .ok "secret-arn"
  launchResult := .ok ()

/-- Sample environment where no task is running and the secret is
missing. -/
def envNoSecret : ConduitEnv where
  clusterArn := .ok "test-arn"
  taskName := "task-test-application-development-conduit-postgres-abcdef123456"
  taskStates := fun _ => none
  secretArn := .error (.secretNotFound "POSTGRES")
  launchResult := .ok ()

/-- Sample environment where no task is running and the launch fails. -/
def envLaunchFails : ConduitEnv where
  clusterArn := .ok "test-arn"
  taskName := "task-test-application-development-conduit-postgres-abcdef123456"
  taskStates := fun _ => none
  secretArn := .ok "secret-arn"
  launchResult := .error .createTaskTimeout

/-- Sample parameter store holding a persisted conduit task name. -/
def storeWithName : ParamStore :=
  ⟨[(conduit_task_name_path "test-application" "development" "postgres",
      "task-test-application-development-conduit-postgres-abcdef123456")]⟩

end PlatformTools

namespace PlatformTools

/-! ## Theorems -/

theorem readFile_writeFile_same (fs : FileSystem) (p c : String) :
    readFile (writeFile fs p c) p = some c := by
  simp [readFile, writeFile, List.find?]

theorem readFile_writeFile_other (fs : FileSystem) (p c q : String) (hq : q ≠ p) :
    readFile (writeFile fs p c) q = readFile fs q := by
  have h : (p == q) = false := beq_eq_false_iff_ne.mpr (Ne.symm hq)
  simp [readFile, writeFile, List.find?, h]

theorem mkfile_of_not_exists (fs : FileSystem) (b f c : String) (ow : Bool)
    (hex : (readFile fs (joinPath b f)).isSome = false) :
    mkfile fs b f c ow = (writeFile fs (joinPath b f) c, "File " ++ f ++ " created") := by
  simp [mkfile, hex]
  rw [String.append_assoc]
  rfl

theorem mkfile_of_exists_no_overwrite (fs : FileSystem) (b f c : String)
    (hex : (readFile fs (joinPath b f)).isSome = true) :
    mkfile fs b f c false = (fs, "File " ++ f ++ " exists; doing nothing") := by
  simp [mkfile, hex]

theorem mkfile_of_exists_overwrite (fs : FileSystem) (b f c : String)
    (hex : (readFile fs (joinPath b f)).isSome = true) :
    mkfile fs b f c true = (writeFile fs (joinPath b f) c, "File " ++ f ++ " overwritten") := by
  simp [mkfile, hex]
  rw [String.append_assoc]
  rfl

theorem py_norm_char_idem (c : Nat) :
    py_hyphen_to_underscore (py_upper_char (py_hyphen_to_underscore (py_upper_char c))) =
      py_hyphen_to_underscore (py_upper_char c) := by
  unfold py_upper_char py_hyphen_to_underscore
  split_ifs <;> omega

theorem py_norm_char_good (c : Nat) :
    no_lower_no_hyphen_char (py_hyphen_to_underscore (py_upper_char c)) = true := by
  unfold no_lower_no_hyphen_char py_upper_char py_hyphen_to_underscore
  split_ifs <;> simp <;> omega

/-- C3 counterexample: on the addon name `"a b"` the normalisation from
`make_addons` yields `"A B"`, whose middle code point (the space, 32) is
neither alphanumeric nor an underscore, so the output is not always
uppercase-alphanumeric-plus-underscore. -/
theorem secret_name_space_counterexample :
    secret_name (codes "a b") = codes "A B" ∧
      (secret_name (codes "a b")).all upper_snake_char = false := by
  constructor <;> decide

/-- C3 (amended): the secret-key normalisation
`addonName.upper().replace("-", "_")` is total and idempotent, its output
contains no lowercase ASCII letter and no hyphen, and it maps
`named-postgres` to `NAMED_POSTGRES`; characters other than lowercase
letters and hyphens (for example spaces) pass through unchanged. -/
theorem secret_name_idempotent_and_folds :
    (∀ s : List Nat, secret_name (secret_name s) = secret_name s) ∧
      (∀ s : List Nat, (secret_name s).all no_lower_no_hyphen_char = true) ∧
      secret_name (codes "named-postgres") = codes "NAMED_POSTGRES" := by
  refine ⟨?_, ?_, by decide⟩
  · intro s
    induction s with
    | nil => rfl
    | cons c cs ih => simp [secret_name, py_norm_char_idem]
  · intro s
    induction s with
    | nil => rfl
    | cons c cs ih => simp [secret_name, py_norm_char_good]

/-- C10: if the target file exists and `overwrite` is false, `mkfile`
leaves the filesystem unchanged and reports
`File <path> exists; doing nothing`; otherwise it writes exactly the
given contents at the combined path, leaves every other path unchanged,
and reports the file as created, or overwritten when it existed and
`overwrite` is true. -/
theorem mkfile_spec (fs : FileSystem) (basePath filePath contents : String)
    (overwrite : Bool) :
    ((readFile fs (joinPath basePath filePath)).isSome = true → overwrite = false →
        (mkfile fs basePath filePath contents overwrite).1 = fs ∧
          (mkfile fs basePath filePath contents overwrite).2 =
            "File " ++ filePath ++ " exists; doing nothing") ∧
      ((readFile fs (joinPath basePath filePath)).isSome = false →
        readFile (mkfile fs basePath filePath contents overwrite).1
            (joinPath basePath filePath) = some contents ∧
          (∀ p, p ≠ joinPath basePath filePath →
            readFile (mkfile fs basePath filePath contents overwrite).1 p = readFile fs p) ∧
          (mkfile fs basePath filePath contents overwrite).2 =
            "File " ++ filePath ++ " created") ∧
      ((readFile fs (joinPath basePath filePath)).isSome = true → overwrite = true →
        readFile (mkfile fs basePath filePath contents overwrite).1
            (joinPath basePath filePath) = some contents ∧
          (∀ p, p ≠ joinPath basePath filePath →
            readFile (mkfile fs basePath filePath contents overwrite).1 p = readFile fs p) ∧
          (mkfile fs basePath filePath contents overwrite).2 =
            "File " ++ filePath ++ " overwritten") := by
  refine ⟨?_, ?_, ?_⟩
  · intro hex hov
    subst hov
    rw [mkfile_of_exists_no_overwrite fs basePath filePath contents hex]
    exact ⟨rfl, rfl⟩
  · intro hex
    rw [mkfile_of_not_exists fs basePath filePath contents overwrite hex]
    exact ⟨readFile_writeFile_same fs (joinPath basePath filePath) contents,
      fun p hp => readFile_writeFile_other fs (joinPath basePath filePath) contents p hp, rfl⟩
  · intro hex hov
    subst hov
    rw [mkfile_of_exists_overwrite fs basePath filePath contents hex]
    exact ⟨readFile_writeFile_same fs (joinPath basePath filePath) contents,
      fun p hp => readFile_writeFile_other fs (joinPath basePath filePath) contents p hp, rfl⟩

/-- Witness for `mkfile_spec`: instantiated on a filesystem where
`base/existing.yml` already exists (no-overwrite branch) and on the
fresh path `base/new.yml` (create branch). -/
theorem mkfile_spec_witness :
    ((mkfile fsSample "base" "existing.yml" "new contents" false).1 = fsSample ∧
        (mkfile fsSample "base" "existing.yml" "new contents" false).2 =
          "File " ++ "existing.yml" ++ " exists; doing nothing") ∧
      readFile (mkfile fsSample "base" "new.yml" "fresh" false).1 "base/new.yml" =
        some "fresh" := by
  constructor
  · exact (mkfile_spec fsSample "base" "existing.yml" "new contents" false).1
      (by decide) rfl
  · exact ((mkfile_spec fsSample "base" "new.yml" "fresh" false).2.1 (by decide)).1

theorem getParam_putParam_same (s : ParamStore) (p v : String) :
    getParam (putParam s p v) p = some v := by
  simp [getParam, putParam, List.find?]

theorem pollLoop_succ_true (f : Nat → Bool) (i fuel : Nat) (h : f i = true) :
    pollLoop f i (fuel + 1) = (1, true) := by
  simp [pollLoop, h]

theorem pollLoop_const_false (f : Nat → Bool) (h : ∀ i, f i = false) :
    ∀ fuel i, pollLoop f i fuel = (fuel, false) := by
  intro fuel
  induction fuel with
  | zero => intro i; rfl
  | succ n ih => intro i; simp [pollLoop, h i, ih (i + 1)]

/-- C6: the status check reports ready exactly when both the task
execution status and the named agent status are `RUNNING`; in
particular a missing client task, or an agent still `ACTIVATING`, is
reported not ready. -/
theorem addon_client_is_running_ready_iff (task : Option TaskDescription) :
    (addon_client_is_running task = true ↔
        ∃ t, task = some t ∧ t.lastStatus = "RUNNING" ∧ t.agentLastStatus = "RUNNING") ∧
      addon_client_is_running none = false ∧
      addon_client_is_running (some ⟨"RUNNING", "ACTIVATING"⟩) = false := by
  refine ⟨?_, rfl, by decide⟩
  cases task with
  | none => simp [addon_client_is_running]
  | some t => simp [addon_client_is_running]

/-- C5: when the task never reports both task-active and agent-active,
`connect_to_addon_client_task` performs exactly 15 status checks, fails
with the readiness timeout, and never issues the attach call. -/
theorem connect_to_addon_client_task_timeout (states : Nat → Option TaskDescription)
    (h : ∀ i, addon_client_is_running (states i) = false) :
    connect_to_addon_client_task states = (.error .createTaskTimeout, 15, false) := by
  unfold connect_to_addon_client_task
  rw [pollLoop_const_false (fun i => addon_client_is_running (states i)) h 15 0]
  rfl

/-- Witness for `connect_to_addon_client_task_timeout`: a task that is
never observed. -/
theorem connect_to_addon_client_task_timeout_witness :
    connect_to_addon_client_task (fun _ => none) = (.error .createTaskTimeout, 15, false) :=
  connect_to_addon_client_task_timeout (fun _ => none) (fun _ => rfl)

/-- C4: secret resolution queries the primary secret store at the
canonical path first and returns its hit; only on a primary miss does it
query the fallback parameter store at the same path; and when neither
store has the path it fails with `SecretNotFound` carrying the secret
key. -/
theorem get_connection_secret_arn_resolution (sm ps : String → Option String)
    (app env key : String) :
    (∀ arn, sm (connection_secret_path app env key) = some arn →
        get_connection_secret_arn sm ps app env key = .ok arn) ∧
      (sm (connection_secret_path app env key) = none →
        ∀ arn, ps (connection_secret_path app env key) = some arn →
          get_connection_secret_arn sm ps app env key = .ok arn) ∧
      (sm (connection_secret_path app env key) = none →
        ps (connection_secret_path app env key) = none →
          get_connection_secret_arn sm ps app env key = .error (.secretNotFound key)) := by
  refine ⟨?_, ?_, ?_⟩ <;> intros <;> simp [get_connection_secret_arn, *]

/-- Witness for `get_connection_secret_arn_resolution`: a primary-store
hit and a double miss. -/
theorem get_connection_secret_arn_resolution_witness :
    get_connection_secret_arn (fun _ => some "sm-arn") (fun _ => none)
        "test-application" "development" "POSTGRES" = .ok "sm-arn" ∧
      get_connection_secret_arn (fun _ => none) (fun _ => none)
        "test-application" "development" "POSTGRES" =
        .error (.secretNotFound "POSTGRES") :=
  ⟨(get_connection_secret_arn_resolution (fun _ => some "sm-arn") (fun _ => none)
      "test-application" "development" "POSTGRES").1 "sm-arn" rfl,
    (get_connection_secret_arn_resolution (fun _ => none) (fun _ => none)
      "test-application" "development" "POSTGRES").2.2 rfl rfl⟩

/-- C2: the task-name registry returns a persisted name verbatim with
no write; when nothing is persisted it synthesizes
`task-<app>-<env>-conduit-<addonName>-<random12>` from the random
generator output (a lowercase alphanumeric string of exactly 12
characters), persists it at the canonical path, and returns it; and a
second call with identical inputs returns the identical name and
performs no write. -/
theorem get_or_create_task_name_spec (store : ParamStore)
    (app env addonName randomId : String) :
    (∀ name, getParam store (conduit_task_name_path app env addonName) = some name →
        get_or_create_task_name store app env addonName randomId = (name, store, false)) ∧
      (getParam store (conduit_task_name_path app env addonName) = none →
        random_id_ok randomId = true →
          (get_or_create_task_name store app env addonName randomId).1 =
              "task-" ++ app ++ "-" ++ env ++ "-conduit-" ++ addonName ++ "-" ++ randomId ∧
            (get_or_create_task_name store app env addonName randomId).2.2 = true ∧
            getParam (get_or_create_task_name store app env addonName randomId).2.1
                (conduit_task_name_path app env addonName) =
              some (get_or_create_task_name store app env addonName randomId).1) ∧
      (∀ randomId2,
        (get_or_create_task_name
            (get_or_create_task_name store app env addonName randomId).2.1
            app env addonName randomId2).1 =
            (get_or_create_task_name store app env addonName randomId).1 ∧
          (get_or_create_task_name
              (get_or_create_task_name store app env addonName randomId).2.1
              app env addonName randomId2).2.2 = false) := by
  refine ⟨?_, ?_, ?_⟩
  · intro name h
    simp [get_or_create_task_name, h]
  · intro h _
    refine ⟨?_, ?_, ?_⟩ <;> simp [get_or_create_task_name, h, getParam_putParam_same]
  · intro randomId2
    cases hc : getParam store (conduit_task_name_path app env addonName) with
    | some name => constructor <;> simp [get_or_create_task_name, hc]
    | none => constructor <;> simp [get_or_create_task_name, hc, getParam_putParam_same]

/-- Witness for `get_or_create_task_name_spec`: a store already holding
a persisted name, and an empty store with the generator output
`abcdef123456`. -/
theorem get_or_create_task_name_spec_witness :
    get_or_create_task_name storeWithName "test-application" "development" "postgres"
        "zzzzzzzzzzzz" =
        ("task-test-application-development-conduit-postgres-abcdef123456",
          storeWithName, false) ∧
      (get_or_create_task_name ⟨[]⟩ "test-application" "development" "postgres"
          "abcdef123456").1 =
        "task-" ++ "test-application" ++ "-" ++ "development" ++ "-conduit-" ++
          "postgres" ++ "-" ++ "abcdef123456" := by
  constructor
  · exact (get_or_create_task_name_spec storeWithName "test-application" "development"
      "postgres" "zzzzzzzzzzzz").1
      "task-test-application-development-conduit-postgres-abcdef123456" (by decide)
  · exact ((get_or_create_task_name_spec ⟨[]⟩ "test-application" "development"
      "postgres" "abcdef123456").2.1 rfl (by decide)).1

/-- C1: when the client task is already active (every status
observation reports running), `start_conduit` issues neither the secret
resolution, nor the launch, nor either policy patch, and attaches to
the existing task, succeeding. -/
theorem start_conduit_reuses_running_task (env : ConduitEnv) (ty : String)
    (name : Option String)
    (hty : VALID_ADDON_TYPES.contains ty = true)
    (harn : ∃ arn, env.clusterArn = .ok arn)
    (hrun : ∀ i, addon_client_is_running (env.taskStates i) = true) :
    (start_conduit env ty name).1 = .ok () ∧
      CallEvent.resolveSecret ∉ (start_conduit env ty name).2 ∧
      CallEvent.launchTask ∉ (start_conduit env ty name).2 ∧
      CallEvent.patchDeletePolicy ∉ (start_conduit env ty name).2 ∧
      CallEvent.patchLogRetention ∉ (start_conduit env ty name).2 ∧
      CallEvent.attachSession ∈ (start_conduit env ty name).2 := by
  obtain ⟨arn, harn⟩ := harn
  have hmem : ty ∈ VALID_ADDON_TYPES := by simpa using hty
  have hp : pollLoop (fun i => addon_client_is_running (env.taskStates i)) 1 15 =
      (1, true) :=
    pollLoop_succ_true (fun i => addon_client_is_running (env.taskStates i)) 1 14 (hrun 1)
  have hres : start_conduit env ty name =
      (.ok (), [.locateCluster, .getTaskName, .checkRunning, .pollCheck, .attachSession]) := by
    unfold start_conduit connectPhase
    simp [hmem, harn, hrun 0, hp]
  rw [hres]
  refine ⟨rfl, by decide, by decide, by decide, by decide, by decide⟩

/-- Witness for `start_conduit_reuses_running_task`: the sample
environment with an already-running client task. -/
theorem start_conduit_reuses_running_task_witness :
    (start_conduit envRunning "postgres" none).1 = .ok () ∧
      CallEvent.resolveSecret ∉ (start_conduit envRunning "postgres" none).2 ∧
      CallEvent.launchTask ∉ (start_conduit envRunning "postgres" none).2 ∧
      CallEvent.patchDeletePolicy ∉ (start_conduit envRunning "postgres" none).2 ∧
      CallEvent.patchLogRetention ∉ (start_conduit envRunning "postgres" none).2 ∧
      CallEvent.attachSession ∈ (start_conduit envRunning "postgres" none).2 :=
  start_conduit_reuses_running_task envRunning "postgres" none (by decide)
    ⟨"test-arn", rfl⟩ (fun _ => rfl)

/-- C7: with no task running, a secret-resolution failure makes
`start_conduit` fail with that secret-not-found error, never issuing
the launch, either policy patch, any readiness poll, or the attach;
and a launch failure makes it fail with that error, never issuing
either policy patch, any readiness poll, or the attach. -/
theorem start_conduit_failure_ordering (env : ConduitEnv) (ty : String)
    (name : Option String)
    (hty : VALID_ADDON_TYPES.contains ty = true)
    (harn : ∃ arn, env.clusterArn = .ok arn)
    (hnot : addon_client_is_running (env.taskStates 0) = false) :
    (∀ key, env.secretArn = .error (.secretNotFound key) →
        (start_conduit env ty name).1 = .error (.secretNotFound key) ∧
          CallEvent.launchTask ∉ (start_conduit env ty name).2 ∧
          CallEvent.patchDeletePolicy ∉ (start_conduit env ty name).2 ∧
          CallEvent.patchLogRetention ∉ (start_conduit env ty name).2 ∧
          CallEvent.pollCheck ∉ (start_conduit env ty name).2 ∧
          CallEvent.attachSession ∉ (start_conduit env ty name).2) ∧
      (∀ arn e, env.secretArn = .ok arn → env.launchResult = .error e →
        (start_conduit env ty name).1 = .error e ∧
          CallEvent.patchDeletePolicy ∉ (start_conduit env ty name).2 ∧
          CallEvent.patchLogRetention ∉ (start_conduit env ty name).2 ∧
          CallEvent.pollCheck ∉ (start_conduit env ty name).2 ∧
          CallEvent.attachSession ∉ (start_conduit env ty name).2) := by
  obtain ⟨arn0, harn⟩ := harn
  have hmem : ty ∈ VALID_ADDON_TYPES := by simpa using hty
  constructor
  · intro key hsec
    have hres : start_conduit env ty name =
        (.error (.secretNotFound key),
          [.locateCluster, .getTaskName, .checkRunning, .resolveSecret]) := by
      unfold start_conduit
      simp [hmem, harn, hnot, hsec]
    rw [hres]
    refine ⟨rfl, by simp, by simp, by simp, by simp, by simp⟩
  · intro arn e hsec hlaunch
    have hres : start_conduit env ty name =
        (.error e,
          [.locateCluster, .getTaskName, .checkRunning, .resolveSecret, .launchTask]) := by
      unfold start_conduit
      simp [hmem, harn, hnot, hsec, hlaunch]
    rw [hres]
    refine ⟨rfl, by simp, by simp, by simp, by simp⟩

/-- Witness for `start_conduit_failure_ordering`: the sample
environments with a missing secret and with a failing launch. -/
theorem start_conduit_failure_ordering_witness :
    ((start_conduit envNoSecret "postgres" none).1 =
        .error (.secretNotFound "POSTGRES") ∧
      CallEvent.launchTask ∉ (start_conduit envNoSecret "postgres" none).2 ∧
      CallEvent.patchDeletePolicy ∉ (start_conduit envNoSecret "postgres" none).2 ∧
      CallEvent.patchLogRetention ∉ (start_conduit envNoSecret "postgres" none).2 ∧
      CallEvent.pollCheck ∉ (start_conduit envNoSecret "postgres" none).2 ∧
      CallEvent.attachSession ∉ (start_conduit envNoSecret "postgres" none).2) ∧
      ((start_conduit envLaunchFails "postgres" none).1 = .error .createTaskTimeout ∧
        CallEvent.patchDeletePolicy ∉ (start_conduit envLaunchFails "postgres" none).2 ∧
        CallEvent.patchLogRetention ∉ (start_conduit envLaunchFails "postgres" none).2 ∧
        CallEvent.pollCheck ∉ (start_conduit envLaunchFails "postgres" none).2 ∧
        CallEvent.attachSession ∉ (start_conduit envLaunchFails "postgres" none).2) :=
  ⟨(start_conduit_failure_ordering envNoSecret "postgres" none (by decide)
      ⟨"test-arn", rfl⟩ rfl).1 "POSTGRES" rfl,
    (start_conduit_failure_ordering envLaunchFails "postgres" none (by decide)
      ⟨"test-arn", rfl⟩ rfl).2 "secret-arn" .createTaskTimeout rfl rfl⟩

/-- C8: when the cluster lookup fails, `start_conduit` fails with the
no-cluster error and issues none of the task-name resolution, the
existing-task check, the secret resolution, the launch, either policy
patch, any readiness poll, or the attach. -/
theorem start_conduit_no_cluster_stops (env : ConduitEnv) (ty : String)
    (name : Option String)
    (hty : VALID_ADDON_TYPES.contains ty = true)
    (h : env.clusterArn = .error .noCluster) :
    (start_conduit env ty name).1 = .error .noCluster ∧
      CallEvent.getTaskName ∉ (start_conduit env ty name).2 ∧
      CallEvent.checkRunning ∉ (start_conduit env ty name).2 ∧
      CallEvent.resolveSecret ∉ (start_conduit env ty name).2 ∧
      CallEvent.launchTask ∉ (start_conduit env ty name).2 ∧
      CallEvent.patchDeletePolicy ∉ (start_conduit env ty name).2 ∧
      CallEvent.patchLogRetention ∉ (start_conduit env ty name).2 ∧
      CallEvent.pollCheck ∉ (start_conduit env ty name).2 ∧
      CallEvent.attachSession ∉ (start_conduit env ty name).2 := by
  have hmem : ty ∈ VALID_ADDON_TYPES := by simpa using hty
  have hres : start_conduit env ty name = (.error .noCluster, [.locateCluster]) := by
    unfold start_conduit
    simp [hmem, h]
  rw [hres]
  refine ⟨rfl, by decide, by decide, by decide, by decide, by decide, by decide,
    by decide, by decide⟩

/-- Witness for `start_conduit_no_cluster_stops`: the sample
environment whose cluster lookup fails. -/
theorem start_conduit_no_cluster_stops_witness :
    (start_conduit envNoCluster "postgres" none).1 = .error .noCluster ∧
      CallEvent.getTaskName ∉ (start_conduit envNoCluster "postgres" none).2 ∧
      CallEvent.checkRunning ∉ (start_conduit envNoCluster "postgres" none).2 ∧
      CallEvent.resolveSecret ∉ (start_conduit envNoCluster "postgres" none).2 ∧
      CallEvent.launchTask ∉ (start_conduit envNoCluster "postgres" none).2 ∧
      CallEvent.patchDeletePolicy ∉ (start_conduit envNoCluster "postgres" none).2 ∧
      CallEvent.patchLogRetention ∉ (start_conduit envNoCluster "postgres" none).2 ∧
      CallEvent.pollCheck ∉ (start_conduit envNoCluster "postgres" none).2 ∧
      CallEvent.attachSession ∉ (start_conduit envNoCluster "postgres" none).2 :=
  start_conduit_no_cluster_stops envNoCluster "postgres" none (by decide) rfl

/-- C9 counterexample: on the invalid addon type `nope` the conduit
command exits with the argument-parsing usage code 2, not 1, as fixed
by `test_conduit_command_when_addon_type_is_invalid`. -/
theorem conduit_command_invalid_type_exits_2 :
    conduit_command envRunning "nope" "test-application" "development" none =
        (2, usage_error_message "nope") ∧
      (conduit_command envRunning "nope" "test-application" "development" none).1 ≠ 1 := by
  constructor <;> decide

/-- C9 (amended): for a supported addon type the conduit command exits
0 on successful attach, and exits 1 with a human-readable message
naming the failure's subject for each terminal failure of
`start_conduit` (the cluster for no-cluster, the addon or secret name
for secret-not-found, the addon task for the task-start/readiness
timeout); an unsupported addon type is rejected by the argument-parsing
layer with the usage exit code 2. -/
theorem conduit_command_exit_codes (env : ConduitEnv) (ty app en : String)
    (name : Option String) :
    (VALID_ADDON_TYPES.contains ty = true →
        ((start_conduit env ty name).1 = .ok () →
          conduit_command env ty app en name = (0, "")) ∧
          ((start_conduit env ty name).1 = .error .noCluster →
            conduit_command env ty app en name = (1, no_cluster_message app en)) ∧
          (∀ key, (start_conduit env ty name).1 = .error (.secretNotFound key) →
            conduit_command env ty app en name =
              (1, secret_not_found_message (name.getD ty) app en)) ∧
          ((start_conduit env ty name).1 = .error .createTaskTimeout →
            conduit_command env ty app en name = (1, task_timeout_message ty app en))) ∧
      (VALID_ADDON_TYPES.contains ty = false →
        conduit_command env ty app en name = (2, usage_error_message ty)) := by
  constructor
  · intro hty
    have hmem : ty ∈ VALID_ADDON_TYPES := by simpa using hty
    refine ⟨?_, ?_, ?_, ?_⟩ <;> intros <;> simp [conduit_command, hmem, *]
  · intro hty
    have hnmem : ty ∉ VALID_ADDON_TYPES := by simpa using hty
    simp [conduit_command, hnmem]

/-- Witness for `conduit_command_exit_codes`: exit 1 with the
cluster-naming message on the sample no-cluster environment, and exit 0
on the sample already-running environment. -/
theorem conduit_command_exit_codes_witness :
    conduit_command envNoCluster "postgres" "test-application" "development" none =
        (1, no_cluster_message "test-application" "development") ∧
      conduit_command envRunning "postgres" "test-application" "development" none =
        (0, "") :=
  ⟨((conduit_command_exit_codes envNoCluster "postgres" "test-application" "development"
      none).1 (by decide)).2.1 rfl,
    ((conduit_command_exit_codes envRunning "postgres" "test-application" "development"
      none).1 (by decide)).1 rfl⟩

end PlatformTools
